import Mathlib

/-!
Verification development for the deviceMLOps.MLAgent repository
(src/plugin-parser/mlops-plugin-parser.cc and src/daemon/model-dbus-impl.cc).

The plugin parser reads a JSON manifest bundled in an RPK package and replays
its entries against the ml-agent registration API; the daemon file binds the
model D-Bus operations to svcdb backend calls. Both are shallowly embedded
below: JSON values are an inductive type, possibly-NULL C pointers are Option,
and the side effects of a run (registration calls, entry-point invocations)
are collected as explicit traces.
-/

/-! ### JSON values (json-glib JsonNode / JsonObject / JsonArray) -/

/-- A JSON value, mirroring the node kinds json-glib distinguishes. -/
inductive JVal where
  | null : JVal
  | bool (b : Bool) : JVal
  | num (n : Int) : JVal
  | str (s : String) : JVal
  | arr (elements : List JVal) : JVal
  | obj (members : List (String × JVal)) : JVal

/-- A JsonObject: member list in insertion order. -/
abbrev JObj := List (String × JVal)

/-- First-match association lookup, as json_object_get_member resolves a key. -/
def lookupMember : JObj → String → Option JVal
  | [], _ => none
  | (k, v) :: rest, key => if k = key then some v else lookupMember rest key

/-- JSON_NODE_HOLDS_ARRAY on a possibly-NULL JsonNode pointer. -/
def json_node_holds_array : Option JVal → Bool
  | some (JVal.arr _) => true
  | _ => false

/-- Model of json_node_get_array: the element list when the node holds an array, else NULL. -/
def json_node_get_array : Option JVal → Option (List JVal)
  | some (JVal.arr xs) => some xs
  | _ => none

/-- Model of json_node_get_object: the member list when the node holds an object, else NULL. -/
def json_node_get_object : Option JVal → Option JObj
  | some (JVal.obj kvs) => some kvs
  | _ => none

/-- Model of json_node_get_string: the string when the node holds a string value, else NULL. -/
def json_node_get_string : Option JVal → Option String
  | some (JVal.str s) => some s
  | _ => none

/-- Model of json_object_get_member on a possibly-NULL JsonObject pointer. -/
def json_object_get_member : Option JObj → String → Option JVal
  | none, _ => none
  | some kvs, key => lookupMember kvs key

/-- Model of json_object_get_string_member: NULL unless the member exists and holds a string. -/
def json_object_get_string_member (object : Option JObj) (key : String) : Option String :=
  json_node_get_string (json_object_get_member object key)

/-- Model of json_array_get_object_element: NULL unless element i holds an object. -/
def json_array_get_object_element (xs : List JVal) (i : Nat) : Option JObj :=
  json_node_get_object xs[i]?

/-- Model of json_array_get_string_element: NULL unless element i holds a string value. -/
def json_array_get_string_element (xs : List JVal) (i : Nat) : Option String :=
  json_node_get_string xs[i]?

/-- Model of g_ascii_tolower: lower only the ASCII uppercase range. -/
def g_ascii_tolower (c : Char) : Char :=
  if c.toNat ≥ 65 && c.toNat ≤ 90 then Char.ofNat (c.toNat + 32) else c

/-- ASCII lowercasing of a whole string, character by character. -/
def g_ascii_lower (s : String) : String :=
  String.mk (s.data.map g_ascii_tolower)

/-- Model of g_ascii_strcasecmp a b == 0: ASCII-case-insensitive string equality. -/
def g_ascii_strcasecmp_eq (a b : String) : Bool :=
  g_ascii_lower a == g_ascii_lower b

/-! ### mlops-plugin-parser.cc -/

/-- Internal enumeration for data types of json (mlsvc_json_type_e). -/
inductive mlsvc_json_type_e where
  | MLSVC_JSON_MODEL
  | MLSVC_JSON_PIPELINE
  | MLSVC_JSON_RESOURCE
deriving DecidableEq

/-- One call into the ml-agent registration backend, with the arguments passed. -/
inductive BackendCall where
  | model_register (name model : String) (active : Bool) (description app_info : String)
  | pipeline_set_description (name description : String)
  | resource_add (name path description app_info : String)
deriving DecidableEq

/-- Body of the per-entry loop of _parse_json: the backend calls one iteration issues
for the JsonObject "object" (NULL when the element did not hold an object). -/
def _parse_json_entry (object : Option JObj) (json_type : mlsvc_json_type_e)
    (app_info : Option String) : List BackendCall :=
  match json_type with
  | .MLSVC_JSON_MODEL =>
    let name := json_object_get_string_member object "name"
    let model := json_object_get_string_member object "model"
    let desc := json_object_get_string_member object "description"
    let activate := json_object_get_string_member object "activate"
    match name, model with
    | some n, some m =>
      let active : Bool :=
        match activate with
        | some a => g_ascii_strcasecmp_eq a "true"
        | none => false
      [BackendCall.model_register n m active (desc.getD "") (app_info.getD "")]
    | _, _ => []
  | .MLSVC_JSON_PIPELINE =>
    let name := json_object_get_string_member object "name"
    let pipe := json_object_get_string_member object "pipeline"
    match name, pipe with
    | some n, some p => [BackendCall.pipeline_set_description n p]
    | _, _ => []
  | .MLSVC_JSON_RESOURCE =>
    let name := json_object_get_string_member object "name"
    let desc := json_object_get_string_member object "description"
    let path_node := json_object_get_member object "path"
    match name with
    | none => []
    | some n =>
      let path_len : Nat :=
        if json_node_holds_array path_node then
          match json_node_get_array path_node with
          | some xs => xs.length
          | none => 0
        else 1
      if path_len = 0 then []
      else
        (List.range path_len).filterMap (fun pidx =>
          let path : Option String :=
            match json_node_get_array path_node with
            | some xs => json_array_get_string_element xs pidx
            | none => json_node_get_string path_node
          match path with
          | none => none
          | some p => some (BackendCall.resource_add n p (desc.getD "") (app_info.getD "")))

/-- Model of _parse_json: the backend calls issued for one category node, which may
hold an array of entries or a single entry object. -/
def _parse_json (node : Option JVal) (json_type : mlsvc_json_type_e)
    (app_info : Option String) : List BackendCall :=
  if json_node_holds_array node then
    match json_node_get_array node with
    | none => []
    | some arr =>
      ((List.range arr.length).map (fun i =>
        _parse_json_entry (json_array_get_object_element arr i) json_type app_info)).flatten
  else
    _parse_json_entry (json_node_get_object node) json_type app_info

/-- Category dispatch of the member-name comparisons in _get_json_config. -/
def _config_category (name : String) : Option mlsvc_json_type_e :=
  if g_ascii_strcasecmp_eq name "model" || g_ascii_strcasecmp_eq name "models" then
    some .MLSVC_JSON_MODEL
  else if g_ascii_strcasecmp_eq name "pipeline" || g_ascii_strcasecmp_eq name "pipelines" then
    some .MLSVC_JSON_PIPELINE
  else if g_ascii_strcasecmp_eq name "resource" || g_ascii_strcasecmp_eq name "resources" then
    some .MLSVC_JSON_RESOURCE
  else
    none

/-- The member loop of _get_json_config: walk the top-level member names in order;
a recognized category key contributes the calls of its node, an unrecognized key
stops the loop and fails the parse (earlier calls remain issued). -/
def _config_members_loop (object : Option JObj) (app_info : Option String) :
    List String → Bool × List BackendCall
  | [] => (true, [])
  | name :: rest =>
    match _config_category name with
    | some ty =>
      let calls := _parse_json (json_object_get_member object name) ty app_info
      let r := _config_members_loop object app_info rest
      (r.1, calls ++ r.2)
    | none => (false, [])

/-- Outcome of the file-level steps of _get_json_config that precede JSON decoding:
the g_file_test check, the g_file_get_contents read, and the JSON load. A failed
load is parsed_root = none; a successful load yields the root value. -/
structure JsonFile where
  file_test_ok : Bool
  file_readable : Bool
  parsed_root : Option JVal

/-- Model of _get_json_config: parse result together with the trace of backend calls.
After a successful JSON load the root node is never NULL, so the json_parser_new
allocation check and the NULL-root check of the source cannot fire and are elided. -/
def _get_json_config (f : JsonFile) (app_info : Option String) : Bool × List BackendCall :=
  if !f.file_test_ok then (false, [])
  else if !f.file_readable then (false, [])
  else
    match f.parsed_root with
    | none => (false, [])
    | some root =>
      let object := json_node_get_object (some root)
      let members : List String :=
        match object with
        | none => []
        | some kvs => kvs.map Prod.fst
      _config_members_loop object app_info members

/-! ### Package-manager plugin entry points -/

/-- Model of json_generator output for the flat string-valued object _make_pkg_info
builds (whitespace abbreviated with respect to pretty printing). -/
def json_generator_to_data (kvs : List (String × String)) : String :=
  "\x7b " ++
    String.intercalate ", " (kvs.map (fun kv => "\"" ++ kv.1 ++ "\": \"" ++ kv.2 ++ "\"")) ++
    " \x7d"

/-- Model of _make_pkg_info: the serialized pkg-info JSON string. -/
def _make_pkg_info (pkgid : String) (appid : Option String)
    (res_type res_version : String) : String :=
  json_generator_to_data
    [("is_rpk", "T"), ("pkg_id", pkgid), ("app_id", appid.getD ""),
     ("res_type", res_type), ("res_version", res_version)]

/-- Model of g_build_filename: join path components with the separator. -/
def g_build_filename (parts : List String) : String :=
  String.intercalate "/" parts

/-- Results of the pkgmgrinfo metadata queries INSTALL performs; none models a
query returning a code other than PMINFO_R_OK. -/
structure PkgMgrInfo where
  pkginfo_ok : Bool
  pkg_type : Option String
  root_path : Option String
  res_type : Option String
  res_version : Option String

/-- Observable events of a plugin entry-point run: which entry points were invoked
and which backend calls the manifest parse issued. -/
inductive Ev where
  | uninstall_called
  | install_called
  | backend (c : BackendCall)
deriving DecidableEq

/-- Model of PKGMGR_MDPARSER_PLUGIN_INSTALL. The filesystem is a map from a path to
the manifest-file outcome at that path; the result is the returned int together
with the event trace of the run. -/
def PKGMGR_MDPARSER_PLUGIN_INSTALL (env : PkgMgrInfo) (fs : String → JsonFile)
    (pkgid : String) (appid : Option String) : Int × List Ev :=
  if !env.pkginfo_ok then (-1, [Ev.install_called])
  else
    match env.pkg_type with
    | none => (-1, [Ev.install_called])
    | some pkg_type =>
      if pkg_type ≠ "rpk" then (0, [Ev.install_called])
      else
        match env.root_path with
        | none => (-1, [Ev.install_called])
        | some root_path =>
          match env.res_type with
          | none => (-1, [Ev.install_called])
          | some res_type =>
            match env.res_version with
            | none => (-1, [Ev.install_called])
            | some res_version =>
              let app_info := _make_pkg_info pkgid appid res_type res_version
              let json_file := g_build_filename
                [root_path, "res", "global", res_type, "rpk_config.json"]
              let r := _get_json_config (fs json_file) (some app_info)
              (if r.1 then 0 else -1, Ev.install_called :: r.2.map Ev.backend)

/-- Model of PKGMGR_MDPARSER_PLUGIN_UNINSTALL: logs and returns 0. -/
def PKGMGR_MDPARSER_PLUGIN_UNINSTALL (_pkgid : String) (_appid : Option String) :
    Int × List Ev :=
  (0, [Ev.uninstall_called])

/-- Model of PKGMGR_MDPARSER_PLUGIN_UPGRADE: uninstall, then install, both results
discarded; returns 0. -/
def PKGMGR_MDPARSER_PLUGIN_UPGRADE (env : PkgMgrInfo) (fs : String → JsonFile)
    (pkgid : String) (appid : Option String) : Int × List Ev :=
  let u := PKGMGR_MDPARSER_PLUGIN_UNINSTALL pkgid appid
  let i := PKGMGR_MDPARSER_PLUGIN_INSTALL env fs pkgid appid
  (0, u.2 ++ i.2)

/-- Model of PKGMGR_MDPARSER_PLUGIN_RECOVERUPGRADE: delegates to UPGRADE. -/
def PKGMGR_MDPARSER_PLUGIN_RECOVERUPGRADE (env : PkgMgrInfo) (fs : String → JsonFile)
    (pkgid : String) (appid : Option String) : Int × List Ev :=
  PKGMGR_MDPARSER_PLUGIN_UPGRADE env fs pkgid appid

/-! ### model-dbus-impl.cc -/

/-- The svcdb backend the model D-Bus handlers call into; each field models one
svcdb_model_* operation with its return status and out-parameters. -/
structure Backend where
  svcdb_model_add : String → String → Bool → String → String → Int × Nat
  svcdb_model_update_description : String → Nat → String → Int
  svcdb_model_activate : String → Nat → Int
  svcdb_model_get : String → Nat → Int × Option String
  svcdb_model_get_activated : String → Int × Option String
  svcdb_model_get_all : String → Int × Option String
  svcdb_model_delete : String → Nat → Bool → Int

/-- One svcdb backend invocation, with the arguments passed. -/
inductive SvcdbCall where
  | model_add (name path : String) (active : Bool) (description app_info : String)
  | model_update_description (name : String) (version : Nat) (description : String)
  | model_activate (name : String) (version : Nat)
  | model_get (name : String) (version : Nat)
  | model_get_activated (name : String)
  | model_get_all (name : String)
  | model_delete (name : String) (version : Nat) (force : Bool)
deriving DecidableEq

/-- The machinelearning_service_model_complete_* call a handler finishes with:
the payload and status handed back to the method invocation. -/
inductive Completion where
  | register (version : Nat) (status : Int)
  | update_description (status : Int)
  | activate (status : Int)
  | get (model_info : Option String) (status : Int)
  | get_activated (model_info : Option String) (status : Int)
  | get_all (model_info : Option String) (status : Int)
  | delete (status : Int)
deriving DecidableEq

/-- Status code carried by a completion. -/
def Completion.status : Completion → Int
  | .register _ s => s
  | .update_description s => s
  | .activate s => s
  | .get _ s => s
  | .get_activated _ s => s
  | .get_all _ s => s
  | .delete s => s

/-- Model of gdbus_cb_model_register: handled flag, svcdb calls made, completion. -/
def gdbus_cb_model_register (b : Backend) (name path : String) (is_active : Bool)
    (description app_info : String) : Bool × List SvcdbCall × Completion :=
  let r := b.svcdb_model_add name path is_active description app_info
  (true, [SvcdbCall.model_add name path is_active description app_info],
    Completion.register r.2 r.1)

/-- Model of gdbus_cb_model_update_description. -/
def gdbus_cb_model_update_description (b : Backend) (name : String) (version : Nat)
    (description : String) : Bool × List SvcdbCall × Completion :=
  let ret := b.svcdb_model_update_description name version description
  (true, [SvcdbCall.model_update_description name version description],
    Completion.update_description ret)

/-- Model of gdbus_cb_model_activate. -/
def gdbus_cb_model_activate (b : Backend) (name : String) (version : Nat) :
    Bool × List SvcdbCall × Completion :=
  let ret := b.svcdb_model_activate name version
  (true, [SvcdbCall.model_activate name version], Completion.activate ret)

/-- Model of gdbus_cb_model_get. -/
def gdbus_cb_model_get (b : Backend) (name : String) (version : Nat) :
    Bool × List SvcdbCall × Completion :=
  let r := b.svcdb_model_get name version
  (true, [SvcdbCall.model_get name version], Completion.get r.2 r.1)

/-- Model of gdbus_cb_model_get_activated. -/
def gdbus_cb_model_get_activated (b : Backend) (name : String) :
    Bool × List SvcdbCall × Completion :=
  let r := b.svcdb_model_get_activated name
  (true, [SvcdbCall.model_get_activated name], Completion.get_activated r.2 r.1)

/-- Model of gdbus_cb_model_get_all. -/
def gdbus_cb_model_get_all (b : Backend) (name : String) :
    Bool × List SvcdbCall × Completion :=
  let r := b.svcdb_model_get_all name
  (true, [SvcdbCall.model_get_all name], Completion.get_all r.2 r.1)

/-- Model of gdbus_cb_model_delete. -/
def gdbus_cb_model_delete (b : Backend) (name : String) (version : Nat) (force : Bool) :
    Bool × List SvcdbCall × Completion :=
  let ret := b.svcdb_model_delete name version force
  (true, [SvcdbCall.model_delete name version force], Completion.delete ret)

/-- The DBUS_MODEL_I_HANDLER_* signal-name constants of dbus-interface.h, as
distinct symbolic values. -/
inductive DbusSignal where
  | DBUS_MODEL_I_HANDLER_REGISTER
  | DBUS_MODEL_I_HANDLER_UPDATE_DESCRIPTION
  | DBUS_MODEL_I_HANDLER_ACTIVATE
  | DBUS_MODEL_I_HANDLER_GET
  | DBUS_MODEL_I_HANDLER_GET_ACTIVATED
  | DBUS_MODEL_I_HANDLER_GET_ALL
  | DBUS_MODEL_I_HANDLER_DELETE
deriving DecidableEq

/-- Tags naming the seven gdbus_cb_model_* callbacks bound in the table. -/
inductive ModelHandlerCb where
  | register
  | update_description
  | activate
  | get
  | get_activated
  | get_all
  | delete
deriving DecidableEq

/-- Model of struct gdbus_signal_info. -/
structure gdbus_signal_info where
  signal_name : DbusSignal
  cb : ModelHandlerCb
  handler_id : Nat

/-- Model of the handler_infos dispatch table of model-dbus-impl.cc. -/
def handler_infos : List gdbus_signal_info :=
  [⟨.DBUS_MODEL_I_HANDLER_REGISTER, .register, 0⟩,
   ⟨.DBUS_MODEL_I_HANDLER_UPDATE_DESCRIPTION, .update_description, 0⟩,
   ⟨.DBUS_MODEL_I_HANDLER_ACTIVATE, .activate, 0⟩,
   ⟨.DBUS_MODEL_I_HANDLER_GET, .get, 0⟩,
   ⟨.DBUS_MODEL_I_HANDLER_GET_ACTIVATED, .get_activated, 0⟩,
   ⟨.DBUS_MODEL_I_HANDLER_GET_ALL, .get_all, 0⟩,
   ⟨.DBUS_MODEL_I_HANDLER_DELETE, .delete, 0⟩]

/-- A decoded inbound model-interface request with its wire arguments. -/
inductive ModelRequest where
  | register (name path : String) (is_active : Bool) (description app_info : String)
  | update_description (name : String) (version : Nat) (description : String)
  | activate (name : String) (version : Nat)
  | get (name : String) (version : Nat)
  | get_activated (name : String)
  | get_all (name : String)
  | delete (name : String) (version : Nat) (force : Bool)

/-- Dispatch of a decoded request to the bound callback. -/
def dispatch_model_request (b : Backend) : ModelRequest → Bool × List SvcdbCall × Completion
  | .register n p a d ap => gdbus_cb_model_register b n p a d ap
  | .update_description n v d => gdbus_cb_model_update_description b n v d
  | .activate n v => gdbus_cb_model_activate b n v
  | .get n v => gdbus_cb_model_get b n v
  | .get_activated n => gdbus_cb_model_get_activated b n
  | .get_all n => gdbus_cb_model_get_all b n
  | .delete n v f => gdbus_cb_model_delete b n v f

/-- Status the svcdb backend itself returns for a request, before any forwarding. -/
def backend_status (b : Backend) : ModelRequest → Int
  | .register n p a d ap => (b.svcdb_model_add n p a d ap).1
  | .update_description n v d => b.svcdb_model_update_description n v d
  | .activate n v => b.svcdb_model_activate n v
  | .get n v => (b.svcdb_model_get n v).1
  | .get_activated n => (b.svcdb_model_get_activated n).1
  | .get_all n => (b.svcdb_model_get_all n).1
  | .delete n v f => b.svcdb_model_delete n v f

/-! ### probe_model_module -/

/-- The errno constant ENOSYS. -/
def ENOSYS : Int := 38

/-- Success or failure of the three external steps probe_model_module performs. -/
structure GdbusEnv where
  acquire_ok : Bool
  connect_ok : Bool
  export_ok : Bool

/-- State the module owns: whether g_gdbus_instance is held and whether the
handlers of handler_infos are attached. -/
structure ModelModuleState where
  g_gdbus_instance : Bool
  handlers_connected : Bool
deriving DecidableEq

/-- Modelled from the spec: gdbus_connect_signal (gdbus-util, not under src/)
attaches the operation handlers; it returns 0 with all handlers attached, or a
negative code with no handler left attached on partial failure. Result is the
return value paired with the handlers-attached state. -/
def gdbus_connect_signal (ok : Bool) : Int × Bool :=
  if ok then (0, true) else (-1, false)

/-- Modelled from the spec: gdbus_export_interface (gdbus-util, not under src/)
exports the service object at the fixed object path; 0 on success, negative on
failure. -/
def gdbus_export_interface (ok : Bool) : Int :=
  if ok then 0 else -1

/-- Modelled from the spec: gdbus_disconnect_signal (gdbus-util, not under src/)
detaches all registered handlers; result is the handlers-attached state after. -/
def gdbus_disconnect_signal : Bool :=
  false

/-- Model of probe_model_module: returned code and resulting module state. -/
def probe_model_module (env : GdbusEnv) : Int × ModelModuleState :=
  if !env.acquire_ok then (-ENOSYS, ⟨false, false⟩)
  else
    let c := gdbus_connect_signal env.connect_ok
    if c.1 < 0 then
      (-ENOSYS, ⟨false, c.2⟩)
    else if gdbus_export_interface env.export_ok < 0 then
      (-ENOSYS, ⟨false, gdbus_disconnect_signal⟩)
    else
      (0, ⟨true, true⟩)

/-! ### Helper definitions used by the statements -/

/-- Calls contributed by a single top-level member name of the manifest. -/
def _config_member_calls (object : Option JObj) (app_info : Option String)
    (name : String) : List BackendCall :=
  match _config_category name with
  | some ty => _parse_json (json_object_get_member object name) ty app_info
  | none => []

/-- Number of model Register calls in a trace. -/
def count_register (calls : List BackendCall) : Nat :=
  calls.countP (fun c =>
    match c with
    | BackendCall.model_register _ _ _ _ _ => true
    | _ => false)

/-- A well-formed model entry: name and model are present as strings. -/
def model_entry_ok (x : JVal) : Bool :=
  (json_object_get_string_member (json_node_get_object (some x)) "name").isSome &&
  (json_object_get_string_member (json_node_get_object (some x)) "model").isSome

/-- The Register call a well-formed model entry gives rise to. -/
def model_call_of (app_info : Option String) (x : JVal) : BackendCall :=
  BackendCall.model_register
    ((json_object_get_string_member (json_node_get_object (some x)) "name").getD "")
    ((json_object_get_string_member (json_node_get_object (some x)) "model").getD "")
    (match json_object_get_string_member (json_node_get_object (some x)) "activate" with
     | some a => g_ascii_strcasecmp_eq a "true"
     | none => false)
    ((json_object_get_string_member (json_node_get_object (some x)) "description").getD "")
    (app_info.getD "")

/-! ### Helper lemmas -/

theorem range_filterMap_getElem {α β : Type} (h : Option α → Option β) (xs : List α) :
    (List.range xs.length).filterMap (fun i => h xs[i]?) =
      xs.filterMap (fun x => h (some x)) := by
  induction xs with
  | nil => simp
  | cons x xs ih =>
    rw [List.length_cons, List.range_succ_eq_map, List.filterMap_cons, List.filterMap_map]
    have hcomp :
        ((fun i => h (x :: xs)[i]?) ∘ Nat.succ) = fun i => h xs[i]? := by
      funext i
      simp [Function.comp]
    rw [hcomp, ih]
    cases h (some x) <;> simp [List.filterMap_cons]

theorem range_map_getElem {α β : Type} (g : Option α → β) (xs : List α) :
    (List.range xs.length).map (fun i => g xs[i]?) = xs.map (fun x => g (some x)) := by
  induction xs with
  | nil => simp
  | cons x xs ih =>
    rw [List.length_cons, List.range_succ_eq_map, List.map_cons, List.map_map]
    have hcomp :
        ((fun i => g (x :: xs)[i]?) ∘ Nat.succ) = fun i => g xs[i]? := by
      funext i
      simp [Function.comp]
    rw [hcomp, ih]
    simp

theorem parse_json_array (xs : List JVal) (ty : mlsvc_json_type_e) (app : Option String) :
    _parse_json (some (JVal.arr xs)) ty app =
      (xs.map (fun x => _parse_json_entry (json_node_get_object (some x)) ty app)).flatten := by
  show ((List.range xs.length).map (fun i =>
      _parse_json_entry (json_array_get_object_element xs i) ty app)).flatten = _
  rw [show (fun i => _parse_json_entry (json_array_get_object_element xs i) ty app) =
      fun i => _parse_json_entry (json_node_get_object xs[i]?) ty app from rfl]
  rw [range_map_getElem (fun o => _parse_json_entry (json_node_get_object o) ty app) xs]

theorem flatten_map_singleton {α β : Type} (f : α → β) (xs : List α) :
    (xs.map (fun x => [f x])).flatten = xs.map f := by
  induction xs with
  | nil => rfl
  | cons x xs ih => simp [ih]

theorem config_loop_known (object : Option JObj) (app : Option String) :
    ∀ names : List String, (∀ n ∈ names, (_config_category n).isSome) →
      _config_members_loop object app names =
        (true, (names.map (_config_member_calls object app)).flatten) := by
  intro names
  induction names with
  | nil => intro _; rfl
  | cons n ns ih =>
    intro h
    have hn := h n (by simp)
    cases hcat : _config_category n with
    | none => rw [hcat] at hn; simp at hn
    | some ty =>
      have hrest := ih (fun m hm => h m (List.mem_cons_of_mem _ hm))
      simp only [_config_members_loop, hcat, hrest, _config_member_calls,
        List.map_cons, List.flatten_cons]

theorem lookupMember_congr_perm :
    ∀ {kvs kvs' : JObj}, kvs.Perm kvs' → (kvs.map Prod.fst).Nodup →
      ∀ key, lookupMember kvs key = lookupMember kvs' key := by
  intro kvs kvs' h
  induction h with
  | nil => intro _ _; rfl
  | cons x _ ih =>
    obtain ⟨k, v⟩ := x
    intro nd key
    rw [List.map_cons, List.nodup_cons] at nd
    show (if k = key then some v else _) = (if k = key then some v else _)
    by_cases hk : k = key
    · simp [hk]
    · simp only [if_neg hk]
      exact ih nd.2 key
  | swap x y l =>
    obtain ⟨k₁, v₁⟩ := x
    obtain ⟨k₂, v₂⟩ := y
    intro nd key
    rw [List.map_cons, List.map_cons, List.nodup_cons] at nd
    have hne : k₂ ≠ k₁ := by
      intro hkk
      exact nd.1 (by simp [hkk])
    show (if k₂ = key then some v₂ else if k₁ = key then some v₁ else _) =
      (if k₁ = key then some v₁ else if k₂ = key then some v₂ else _)
    by_cases h1 : k₁ = key
    · by_cases h2 : k₂ = key
      · exact absurd (h2.trans h1.symm) hne
      · simp [h1, h2]
    · by_cases h2 : k₂ = key
      · simp [h1, h2]
      · simp [h1, h2]
  | trans h₁ _ ih₁ ih₂ =>
    intro nd key
    exact (ih₁ nd key).trans (ih₂ ((h₁.map Prod.fst).nodup nd) key)

/-! ### Claim theorems -/

/-- C1: a category entry missing a required field for its category (a model entry
without name or model, a pipeline entry without name or pipeline) is skipped
without issuing a backend call and without affecting sibling entries, and the
parse still returns true; the concrete manifest with models = [entry a, entry b
missing model] yields exactly one Register call (for a) and parse success. -/
theorem c1_malformed_entry_skipped :
    (∀ (object : Option JObj) (app : Option String),
      (json_object_get_string_member object "name" = none ∨
       json_object_get_string_member object "model" = none) →
      _parse_json_entry object .MLSVC_JSON_MODEL app = [])
    ∧ (∀ (object : Option JObj) (app : Option String),
      (json_object_get_string_member object "name" = none ∨
       json_object_get_string_member object "pipeline" = none) →
      _parse_json_entry object .MLSVC_JSON_PIPELINE app = [])
    ∧ (∀ (xs : List JVal) (ty : mlsvc_json_type_e) (app : Option String),
      _parse_json (some (JVal.arr xs)) ty app =
        (xs.map (fun x => _parse_json_entry (json_node_get_object (some x)) ty app)).flatten)
    ∧ _get_json_config
        ⟨true, true, some (JVal.obj [("models", JVal.arr
          [JVal.obj [("name", JVal.str "a"), ("model", JVal.str "/a")],
           JVal.obj [("name", JVal.str "b")]])])⟩ (some "appinfo")
        = (true, [BackendCall.model_register "a" "/a" false "" "appinfo"]) := by
  refine ⟨?_, ?_, parse_json_array, by decide⟩
  · intro object app h
    cases hn : json_object_get_string_member object "name" with
    | none => simp [_parse_json_entry, hn]
    | some n =>
      cases hm : json_object_get_string_member object "model" with
      | none => simp [_parse_json_entry, hn, hm]
      | some m =>
        rcases h with h | h
        · rw [hn] at h; exact absurd h (by simp)
        · rw [hm] at h; exact absurd h (by simp)
  · intro object app h
    cases hn : json_object_get_string_member object "name" with
    | none => simp [_parse_json_entry, hn]
    | some n =>
      cases hm : json_object_get_string_member object "pipeline" with
      | none => simp [_parse_json_entry, hn, hm]
      | some m =>
        rcases h with h | h
        · rw [hn] at h; exact absurd h (by simp)
        · rw [hm] at h; exact absurd h (by simp)

/-- Witness for C1 at concrete inputs: a model entry without model and a pipeline
entry without pipeline each contribute no backend call. -/
theorem c1_malformed_entry_skipped_witness :
    _parse_json_entry (some [("name", JVal.str "b")]) .MLSVC_JSON_MODEL (some "i") = []
    ∧ _parse_json_entry (some [("name", JVal.str "q")]) .MLSVC_JSON_PIPELINE (some "i") = [] :=
  ⟨c1_malformed_entry_skipped.1 (some [("name", JVal.str "b")]) (some "i")
    (Or.inr (by decide)),
   c1_malformed_entry_skipped.2.1 (some [("name", JVal.str "q")]) (some "i")
    (Or.inr (by decide))⟩

/-- C7 counterexample: a manifest file that exists, is readable, and decodes to a
top-level array. The claim says the parse returns false there, but it returns
true (the member iteration of a non-object root is empty). -/
theorem c7_nonobject_root_counterexample :
    ¬ ((_get_json_config ⟨true, true, some (JVal.arr [])⟩ (some "i")).1 = false) := by
  decide

/-- C7 amended: if the manifest file exists, is readable, and is syntactically
valid JSON but its top-level value is not an object, the parse returns true with
no registration calls issued. -/
theorem c7_nonobject_root_returns_true (f : JsonFile) (root : JVal) (app : Option String)
    (h1 : f.file_test_ok = true) (h2 : f.file_readable = true)
    (h3 : f.parsed_root = some root) (h4 : json_node_get_object (some root) = none) :
    _get_json_config f app = (true, []) := by
  rcases f with ⟨ft, fr, pr⟩
  simp only at h1 h2 h3
  subst h1; subst h2; subst h3
  simp [_get_json_config, h4, _config_members_loop]

/-- Witness for C7 amended at a concrete array-rooted manifest. -/
theorem c7_nonobject_root_returns_true_witness :
    _get_json_config ⟨true, true, some (JVal.arr [JVal.num 1])⟩ (some "i") = (true, []) :=
  c7_nonobject_root_returns_true _ (JVal.arr [JVal.num 1]) _ rfl rfl rfl rfl

/-- C9: top-level keys Model, MODELS, model are treated identically
(case-insensitive category match); the activate value maps to active = true
exactly when it equals "true" case-insensitively, and an absent activate member
or any other value maps to active = false. -/
theorem c9_case_insensitive :
    (∀ (v : JVal) (app : Option String),
      _get_json_config ⟨true, true, some (JVal.obj [("Model", v)])⟩ app =
        _get_json_config ⟨true, true, some (JVal.obj [("model", v)])⟩ app
      ∧ _get_json_config ⟨true, true, some (JVal.obj [("MODELS", v)])⟩ app =
        _get_json_config ⟨true, true, some (JVal.obj [("model", v)])⟩ app)
    ∧ (∀ (n m a : String) (app : Option String),
      _parse_json_entry (some [("name", JVal.str n), ("model", JVal.str m),
          ("activate", JVal.str a)]) .MLSVC_JSON_MODEL app =
        [BackendCall.model_register n m (g_ascii_strcasecmp_eq a "true") "" (app.getD "")])
    ∧ g_ascii_strcasecmp_eq "True" "true" = true
    ∧ g_ascii_strcasecmp_eq "TRUE" "true" = true
    ∧ g_ascii_strcasecmp_eq "true" "true" = true
    ∧ (∀ a : String, g_ascii_lower a ≠ "true" → g_ascii_strcasecmp_eq a "true" = false)
    ∧ (∀ (n m : String) (app : Option String),
      _parse_json_entry (some [("name", JVal.str n), ("model", JVal.str m)])
          .MLSVC_JSON_MODEL app =
        [BackendCall.model_register n m false "" (app.getD "")]) := by
  refine ⟨?_, ?_, by decide, by decide, by decide, ?_, ?_⟩
  · intro v app
    refine ⟨?_, ?_⟩ <;> rfl
  · intro n m a app
    rfl
  · intro a h
    have hlow : g_ascii_lower "true" = "true" := by decide
    simp only [g_ascii_strcasecmp_eq, hlow]
    exact beq_eq_false_iff_ne.mpr h
  · intro n m app
    rfl

/-- Witness for C9 at a concrete non-true activate value. -/
theorem c9_case_insensitive_witness :
    g_ascii_strcasecmp_eq "False" "true" = false :=
  c9_case_insensitive.2.2.2.2.2.1 "False" (by decide)

theorem model_entry_ok_call (x : JVal) (app : Option String) (h : model_entry_ok x = true) :
    _parse_json_entry (json_node_get_object (some x)) .MLSVC_JSON_MODEL app =
      [model_call_of app x] := by
  simp only [model_entry_ok, Bool.and_eq_true, Option.isSome_iff_exists] at h
  obtain ⟨⟨n, hn⟩, ⟨m, hm⟩⟩ := h
  simp only [_parse_json_entry, model_call_of, hn, hm, Option.getD_some]

/-- C2: a model category value holding N well-formed entries as an array yields
exactly N Register calls, one per entry with the fields of that entry; a bare
well-formed object yields exactly one; and the Register-call count of a valid
manifest does not depend on the order of its category keys. -/
theorem c2_model_register_count :
    (∀ (xs : List JVal) (app : Option String),
      (∀ x ∈ xs, model_entry_ok x = true) →
      _parse_json (some (JVal.arr xs)) .MLSVC_JSON_MODEL app = xs.map (model_call_of app))
    ∧ (∀ (kvs : JObj) (app : Option String),
      model_entry_ok (JVal.obj kvs) = true →
      _parse_json (some (JVal.obj kvs)) .MLSVC_JSON_MODEL app =
        [model_call_of app (JVal.obj kvs)])
    ∧ (∀ (kvs kvs' : JObj) (app : Option String),
      kvs.Perm kvs' → (kvs.map Prod.fst).Nodup →
      (∀ n ∈ kvs.map Prod.fst, (_config_category n).isSome) →
      count_register (_get_json_config ⟨true, true, some (JVal.obj kvs)⟩ app).2 =
        count_register (_get_json_config ⟨true, true, some (JVal.obj kvs')⟩ app).2) := by
  refine ⟨?_, ?_, ?_⟩
  · intro xs app h
    rw [parse_json_array]
    have hmap : xs.map (fun x =>
        _parse_json_entry (json_node_get_object (some x)) .MLSVC_JSON_MODEL app) =
        xs.map (fun x => [model_call_of app x]) :=
      List.map_congr_left (fun x hx => model_entry_ok_call x app (h x hx))
    rw [hmap, flatten_map_singleton]
  · intro kvs app h
    exact model_entry_ok_call (JVal.obj kvs) app h
  · intro kvs kvs' app hperm nd hknown
    have hlook := lookupMember_congr_perm hperm nd
    have hknown' : ∀ n ∈ kvs'.map Prod.fst, (_config_category n).isSome := fun n hn =>
      hknown n ((hperm.map Prod.fst).mem_iff.mpr hn)
    have e1 : _get_json_config ⟨true, true, some (JVal.obj kvs)⟩ app =
        _config_members_loop (some kvs) app (kvs.map Prod.fst) := rfl
    have e2 : _get_json_config ⟨true, true, some (JVal.obj kvs')⟩ app =
        _config_members_loop (some kvs') app (kvs'.map Prod.fst) := rfl
    rw [e1, e2, config_loop_known _ _ _ hknown, config_loop_known _ _ _ hknown']
    have hmc : ∀ n, _config_member_calls (some kvs') app n =
        _config_member_calls (some kvs) app n := by
      intro n
      simp only [_config_member_calls, json_object_get_member]
      rw [← hlook n]
    have hmapeq : (kvs'.map Prod.fst).map (_config_member_calls (some kvs') app) =
        (kvs'.map Prod.fst).map (_config_member_calls (some kvs) app) :=
      List.map_congr_left (fun n _ => hmc n)
    show count_register ((kvs.map Prod.fst).map (_config_member_calls (some kvs) app)).flatten =
      count_register ((kvs'.map Prod.fst).map (_config_member_calls (some kvs') app)).flatten
    rw [hmapeq]
    unfold count_register
    rw [← List.flatMap_def, ← List.flatMap_def]
    exact List.Perm.countP_eq _
      ((hperm.map Prod.fst).flatMap_right (_config_member_calls (some kvs) app))

/-- Witness for C2 at concrete inputs: a one-entry array, a bare object, and a
two-key manifest with its keys swapped. -/
theorem c2_model_register_count_witness :
    _parse_json (some (JVal.arr [JVal.obj [("name", JVal.str "a"), ("model", JVal.str "/a")]]))
        .MLSVC_JSON_MODEL (some "i") =
      [JVal.obj [("name", JVal.str "a"), ("model", JVal.str "/a")]].map (model_call_of (some "i"))
    ∧ _parse_json (some (JVal.obj [("name", JVal.str "a"), ("model", JVal.str "/a")]))
        .MLSVC_JSON_MODEL (some "i") =
      [model_call_of (some "i") (JVal.obj [("name", JVal.str "a"), ("model", JVal.str "/a")])]
    ∧ count_register (_get_json_config ⟨true, true, some (JVal.obj
        [("models", JVal.arr []), ("pipelines", JVal.arr [])])⟩ (some "i")).2 =
      count_register (_get_json_config ⟨true, true, some (JVal.obj
        [("pipelines", JVal.arr []), ("models", JVal.arr [])])⟩ (some "i")).2 :=
  ⟨c2_model_register_count.1 _ _ (by decide),
   c2_model_register_count.2.1 _ _ (by decide),
   c2_model_register_count.2.2 _ _ _ (List.Perm.swap _ _ _) (by decide) (by decide)⟩

/-- C3: an unrecognized top-level key makes the parse return false; the keys
before it are still processed and their backend calls stay issued; and under
successful metadata resolution a failed parse makes INSTALL return -1. -/
theorem c3_unrecognized_key_fails :
    (∀ (object : Option JObj) (app : Option String) (names1 names2 : List String) (bad : String),
      (∀ n ∈ names1, (_config_category n).isSome) → _config_category bad = none →
      _config_members_loop object app (names1 ++ bad :: names2) =
        (false, (names1.map (_config_member_calls object app)).flatten))
    ∧ (∀ (env : PkgMgrInfo) (fs : String → JsonFile) (pkgid : String) (appid : Option String)
        (root rt rv : String),
      env.pkginfo_ok = true → env.pkg_type = some "rpk" → env.root_path = some root →
      env.res_type = some rt → env.res_version = some rv →
      (_get_json_config (fs (g_build_filename [root, "res", "global", rt, "rpk_config.json"]))
        (some (_make_pkg_info pkgid appid rt rv))).1 = false →
      (PKGMGR_MDPARSER_PLUGIN_INSTALL env fs pkgid appid).1 = -1)
    ∧ _get_json_config ⟨true, true, some (JVal.obj [("unknown", JVal.arr [])])⟩ (some "i") =
        (false, []) := by
  refine ⟨?_, ?_, by decide⟩
  · intro object app names1 names2 bad h1 hbad
    induction names1 with
    | nil => simp [_config_members_loop, hbad]
    | cons n ns ih =>
      have hn := h1 n (by simp)
      cases hcat : _config_category n with
      | none => rw [hcat] at hn; simp at hn
      | some ty =>
        have hrest := ih (fun m hm => h1 m (List.mem_cons_of_mem _ hm))
        simp only [List.cons_append, _config_members_loop, hcat, List.append_eq, hrest,
          _config_member_calls, List.map_cons, List.flatten_cons]
  · intro env fs pkgid appid root rt rv h1 h2 h3 h4 h5 hfail
    rcases env with ⟨po, pt, rp, rtt, rvv⟩
    simp only at h1 h2 h3 h4 h5
    subst h1; subst h2; subst h3; subst h4; subst h5
    simp [PKGMGR_MDPARSER_PLUGIN_INSTALL, hfail]

/-- Witness for C3 at concrete inputs. -/
theorem c3_unrecognized_key_fails_witness :
    _config_members_loop (some []) (some "i") (["models"] ++ "unknown" :: []) =
      (false, (["models"].map (_config_member_calls (some []) (some "i"))).flatten)
    ∧ (PKGMGR_MDPARSER_PLUGIN_INSTALL ⟨true, some "rpk", some "/r", some "t", some "v"⟩
        (fun _ => ⟨true, true, some (JVal.obj [("unknown", JVal.arr [])])⟩) "p" none).1 = -1 :=
  ⟨c3_unrecognized_key_fails.1 _ _ _ _ _ (by decide) (by decide),
   c3_unrecognized_key_fails.2.1 _ _ "p" none "/r" "t" "v" rfl rfl rfl rfl rfl (by decide)⟩

theorem resource_entry_path_array (object : Option JObj) (app : Option String) (n : String)
    (xs : List JVal) (hn : json_object_get_string_member object "name" = some n)
    (hp : json_object_get_member object "path" = some (JVal.arr xs)) :
    _parse_json_entry object .MLSVC_JSON_RESOURCE app =
      xs.filterMap (fun x =>
        match json_node_get_string (some x) with
        | none => none
        | some p => some (BackendCall.resource_add n p
            ((json_object_get_string_member object "description").getD "")
            (app.getD ""))) := by
  cases xs with
  | nil =>
    simp [_parse_json_entry, hn, hp, json_node_holds_array, json_node_get_array]
  | cons y ys =>
    simp only [_parse_json_entry, hn, hp, json_node_holds_array, json_node_get_array,
      List.length_cons, Nat.succ_ne_zero, if_false, json_array_get_string_element]
    exact range_filterMap_getElem (fun o =>
      match json_node_get_string o with
      | none => none
      | some p => some (BackendCall.resource_add n p
          ((json_object_get_string_member object "description").getD "")
          (app.getD ""))) (y :: ys)

/-- C4: a resource entry with a name whose path member holds an array yields one
AddResource call per string element, all sharing the entry name, description and
appInfo; an element holding no string is skipped while the remaining elements
are still processed; and an entry with zero resolved paths (or only skipped
elements) issues no call and does not fail the parse, as the concrete manifest
with a zero-path entry and a mixed-element sibling shows. -/
theorem c4_resource_paths :
    (∀ (object : Option JObj) (app : Option String) (n : String) (xs : List JVal),
      json_object_get_string_member object "name" = some n →
      json_object_get_member object "path" = some (JVal.arr xs) →
      _parse_json_entry object .MLSVC_JSON_RESOURCE app =
        xs.filterMap (fun x =>
          match json_node_get_string (some x) with
          | none => none
          | some p => some (BackendCall.resource_add n p
              ((json_object_get_string_member object "description").getD "")
              (app.getD ""))))
    ∧ (∀ (object : Option JObj) (app : Option String) (n : String) (ps : List String),
      json_object_get_string_member object "name" = some n →
      json_object_get_member object "path" = some (JVal.arr (ps.map JVal.str)) →
      _parse_json_entry object .MLSVC_JSON_RESOURCE app =
        ps.map (fun p => BackendCall.resource_add n p
          ((json_object_get_string_member object "description").getD "")
          (app.getD "")))
    ∧ _get_json_config ⟨true, true, some (JVal.obj [("resources", JVal.arr
        [JVal.obj [("name", JVal.str "z"), ("path", JVal.arr [])],
         JVal.obj [("name", JVal.str "r"),
           ("path", JVal.arr [JVal.str "/p1", JVal.num 3, JVal.str "/p2"])]])])⟩
        (some "i") =
      (true, [BackendCall.resource_add "r" "/p1" "" "i",
              BackendCall.resource_add "r" "/p2" "" "i"]) := by
  refine ⟨resource_entry_path_array, ?_, by decide⟩
  intro object app n ps hn hp
  rw [resource_entry_path_array object app n (ps.map JVal.str) hn hp, List.filterMap_map]
  rw [show ((fun x =>
      match json_node_get_string (some x) with
      | none => none
      | some p => some (BackendCall.resource_add n p
          ((json_object_get_string_member object "description").getD "")
          (app.getD ""))) ∘ JVal.str) =
    (some ∘ fun p => BackendCall.resource_add n p
        ((json_object_get_string_member object "description").getD "")
        (app.getD "")) from rfl]
  rw [List.filterMap_eq_map]

/-- Witness for C4 at a concrete resource entry with a two-string path array. -/
theorem c4_resource_paths_witness :
    _parse_json_entry (some [("name", JVal.str "r"),
        ("path", JVal.arr [JVal.str "/p1", JVal.str "/p2"])])
      .MLSVC_JSON_RESOURCE (some "i") =
      ["/p1", "/p2"].map (fun p => BackendCall.resource_add "r" p
        ((json_object_get_string_member (some [("name", JVal.str "r"),
          ("path", JVal.arr [JVal.str "/p1", JVal.str "/p2"])]) "description").getD "")
        ((some "i").getD "")) :=
  c4_resource_paths.2.1 _ _ "r" ["/p1", "/p2"] (by decide) rfl

/-- C5: INSTALL returns 0 with no registration calls when the declared package
type is not "rpk"; returns -1 as soon as any metadata-resolution step fails,
with no manifest processing; otherwise parses the manifest at exactly
rootPath/res/global/resType/rpk_config.json, returns 0 iff that parse succeeds,
and its trace is the backend calls of that parse. -/
theorem c5_install_contract :
    (∀ (env : PkgMgrInfo) (fs : String → JsonFile) (pkgid : String) (appid : Option String)
        (ty : String),
      env.pkginfo_ok = true → env.pkg_type = some ty → ty ≠ "rpk" →
      PKGMGR_MDPARSER_PLUGIN_INSTALL env fs pkgid appid = (0, [Ev.install_called]))
    ∧ (∀ (env : PkgMgrInfo) (fs : String → JsonFile) (pkgid : String) (appid : Option String),
      (env.pkginfo_ok = false ∨ env.pkg_type = none ∨
        (env.pkg_type = some "rpk" ∧ (env.root_path = none ∨ env.res_type = none ∨
          env.res_version = none))) →
      PKGMGR_MDPARSER_PLUGIN_INSTALL env fs pkgid appid = (-1, [Ev.install_called]))
    ∧ (∀ (env : PkgMgrInfo) (fs : String → JsonFile) (pkgid : String) (appid : Option String)
        (root rt rv : String),
      env.pkginfo_ok = true → env.pkg_type = some "rpk" → env.root_path = some root →
      env.res_type = some rt → env.res_version = some rv →
      PKGMGR_MDPARSER_PLUGIN_INSTALL env fs pkgid appid =
        (if (_get_json_config (fs (g_build_filename [root, "res", "global", rt,
            "rpk_config.json"])) (some (_make_pkg_info pkgid appid rt rv))).1
         then 0 else -1,
         Ev.install_called ::
           (_get_json_config (fs (g_build_filename [root, "res", "global", rt,
             "rpk_config.json"])) (some (_make_pkg_info pkgid appid rt rv))).2.map
             Ev.backend)) := by
  refine ⟨?_, ?_, ?_⟩
  · intro env fs pkgid appid ty h1 h2 hne
    rcases env with ⟨po, pt, rp, rtt, rvv⟩
    simp only at h1 h2
    subst h1; subst h2
    simp [PKGMGR_MDPARSER_PLUGIN_INSTALL, hne]
  · intro env fs pkgid appid h
    rcases env with ⟨po, pt, rp, rtt, rvv⟩
    simp only at h
    rcases h with h | h | ⟨h, hrest⟩
    · subst h
      simp [PKGMGR_MDPARSER_PLUGIN_INSTALL]
    · subst h
      cases po <;> simp [PKGMGR_MDPARSER_PLUGIN_INSTALL]
    · subst h
      rcases hrest with h | h | h <;> subst h
      · cases po <;> simp [PKGMGR_MDPARSER_PLUGIN_INSTALL]
      · cases po <;> cases rp <;> simp [PKGMGR_MDPARSER_PLUGIN_INSTALL]
      · cases po <;> cases rp <;> cases rtt <;> simp [PKGMGR_MDPARSER_PLUGIN_INSTALL]
  · intro env fs pkgid appid root rt rv h1 h2 h3 h4 h5
    rcases env with ⟨po, pt, rp, rtt, rvv⟩
    simp only at h1 h2 h3 h4 h5
    subst h1; subst h2; subst h3; subst h4; subst h5
    rfl

/-- Witness for C5: a non-rpk package succeeds trivially, a failed metadata step
returns -1, and a good environment with an empty-object manifest returns 0. -/
theorem c5_install_contract_witness :
    PKGMGR_MDPARSER_PLUGIN_INSTALL ⟨true, some "tpk", none, none, none⟩
      (fun _ => ⟨false, false, none⟩) "p" none = (0, [Ev.install_called])
    ∧ PKGMGR_MDPARSER_PLUGIN_INSTALL ⟨false, none, none, none, none⟩
      (fun _ => ⟨false, false, none⟩) "p" none = (-1, [Ev.install_called])
    ∧ PKGMGR_MDPARSER_PLUGIN_INSTALL ⟨true, some "rpk", some "/r", some "t", some "v"⟩
      (fun _ => ⟨true, true, some (JVal.obj [])⟩) "p" none = (0, [Ev.install_called]) := by
  refine ⟨?_, ?_, ?_⟩
  · exact c5_install_contract.1 _ _ "p" none "tpk" rfl rfl (by decide)
  · exact c5_install_contract.2.1 _ _ "p" none (Or.inl rfl)
  · rw [c5_install_contract.2.2 _ _ "p" none "/r" "t" "v" rfl rfl rfl rfl rfl]
    decide

/-- C6 counterexample: the model-interface dispatch table binds seven handlers,
not nine. -/
theorem c6_nine_handlers_counterexample : ¬ (handler_infos.length = 9) := by
  decide

/-- C6 amended: the model service endpoint exposes seven synchronous request
handlers bound in a table-driven dispatch list; every handler calls exactly one
backend operation, always completes the invocation in one step with a
(payload, status) completion, and forwards the backend status code verbatim. -/
theorem c6_handlers_synchronous :
    handler_infos.length = 7
    ∧ handler_infos.map gdbus_signal_info.cb =
        [.register, .update_description, .activate, .get, .get_activated, .get_all, .delete]
    ∧ ∀ (b : Backend) (req : ModelRequest),
        (dispatch_model_request b req).1 = true
        ∧ (dispatch_model_request b req).2.1.length = 1
        ∧ (dispatch_model_request b req).2.2.status = backend_status b req := by
  refine ⟨rfl, rfl, ?_⟩
  intro b req
  cases req <;> exact ⟨rfl, rfl, rfl⟩

/-- C8: probe returns 0 exactly when acquiring the service object, registering
the handlers and exporting the interface all succeed; on any failure it returns
-ENOSYS with the service object released and no handler attached. -/
theorem c8_probe_unwinds (env : GdbusEnv) :
    probe_model_module env =
      if env.acquire_ok && env.connect_ok && env.export_ok then
        (0, ⟨true, true⟩)
      else
        (-ENOSYS, ⟨false, false⟩) := by
  rcases env with ⟨a, c, e⟩
  cases a <;> cases c <;> cases e <;> decide

/-- C10: UPGRADE invokes UNINSTALL then INSTALL in that order and returns 0
unconditionally, even when the inner INSTALL failed, and RECOVERUPGRADE returns
exactly what UPGRADE returns; the concrete run shows an install failure
reported as success by UPGRADE. -/
theorem c10_upgrade_returns_zero :
    (∀ (env : PkgMgrInfo) (fs : String → JsonFile) (pkgid : String) (appid : Option String),
      PKGMGR_MDPARSER_PLUGIN_UPGRADE env fs pkgid appid =
        (0, Ev.uninstall_called :: (PKGMGR_MDPARSER_PLUGIN_INSTALL env fs pkgid appid).2)
      ∧ PKGMGR_MDPARSER_PLUGIN_RECOVERUPGRADE env fs pkgid appid =
          PKGMGR_MDPARSER_PLUGIN_UPGRADE env fs pkgid appid)
    ∧ (PKGMGR_MDPARSER_PLUGIN_INSTALL ⟨true, some "rpk", some "/r", some "t", some "v"⟩
        (fun _ => ⟨false, false, none⟩) "p" none).1 = -1
    ∧ (PKGMGR_MDPARSER_PLUGIN_UPGRADE ⟨true, some "rpk", some "/r", some "t", some "v"⟩
        (fun _ => ⟨false, false, none⟩) "p" none).1 = 0 := by
  refine ⟨?_, by decide, by decide⟩
  intro env fs pkgid appid
  exact ⟨rfl, rfl⟩
